import Mathlib

/-!
Shallow embedding of the cluster-creation request lifecycle of
pxbackup-ansible-runner (`app/routes.py`, `app/schemas.py`, `app/models.py`)
and proofs of the specification claims about it.

Machine integers do not occur (ids and timestamps are unbounded Python ints,
embedded as `Nat`).  Fallible code is embedded as explicit result values.
-/

namespace PxBackup

/- ### String helpers for the embedded Python stdlib calls -/

/-- The single-quote character, used by `shlex.quote`. -/
def sqChar : Char := Char.ofNat 39

/-- The double-quote character, used by `shlex.quote`. -/
def dqChar : Char := Char.ofNat 34

/-- Python truthiness of an `Optional[str]`: `None` and the empty string are
falsy, every other string is truthy. -/
def truthy : Option String → Bool
  | none => false
  | some s => !s.isEmpty

/-- Python `str.isalnum` on a list of characters (ASCII fragment): true iff
the list is non-empty and every character is alphanumeric. -/
def pyIsAlnum (l : List Char) : Bool :=
  !l.isEmpty && l.all Char.isAlphanum

/-- Whether a character list contains the substring `--` (Python
`"--" in v`). -/
def hasDoubleHyphen : List Char → Bool
  | a :: b :: rest => (a == '-' && b == '-') || hasDoubleHyphen (b :: rest)
  | _ => false

/-- Characters of the standard base64 alphabet (without padding). -/
def isB64Char (c : Char) : Bool :=
  c.isAlphanum || c == '+' || c == '/'

/-- Success predicate of Python `base64.b64decode` (library call made by
`CreateClusterRequest.validate_kubeconfig`): characters outside the alphabet
are discarded and decoding fails exactly on incorrect padding. -/
def b64decodable (s : String) : Bool :=
  let data := (s.toList.filter isB64Char).length
  let pads := (s.toList.filter (fun c => c == '=')).length
  (data + pads) % 4 == 0 && data % 4 != 1

/-- Safe characters of Python `shlex.quote`: ASCII letters, digits, and the
characters underscore, at, percent, plus, equals, colon, comma, dot, slash,
hyphen. -/
def shlexSafe (c : Char) : Bool :=
  c.isAlphanum || c == '_' || c == '@' || c == '%' || c == '+' || c == '=' ||
    c == ':' || c == ',' || c == '.' || c == '/' || c == '-'

/-- The body substitution of Python `shlex.quote`: each single quote is
replaced by the five-character sequence quote, double-quote, quote,
double-quote, quote. -/
def sqEncode : List Char → List Char
  | [] => []
  | c :: rest =>
    (if c == sqChar then [sqChar, dqChar, sqChar, dqChar, sqChar] else [c]) ++
      sqEncode rest

/-- Python `shlex.quote` on the character list: the empty string becomes two
single quotes, a string of safe characters is returned unchanged, and any
other string is wrapped in single quotes with embedded single quotes
escaped. -/
def shlexQuoteL (l : List Char) : List Char :=
  if l.isEmpty then [sqChar, sqChar]
  else if l.all shlexSafe then l
  else sqChar :: (sqEncode l ++ [sqChar])

/-- Python `shlex.quote`. -/
def shlexQuote (s : String) : String := ⟨shlexQuoteL s.toList⟩

/-- Python `str(bool)` as used when stringifying extra-vars values. -/
def pyStr (b : Bool) : String := if b then "True" else "False"

/- ### Request schema (`app/schemas.py`, class `CreateClusterRequest`) -/

/-- The fields of a cluster-creation request body (`CreateClusterRequest`). -/
structure CreateClusterRequest where
  name : String
  service_account : String
  «namespace» : String
  kubeconfig : Option String
  kubeconfig_vault_path : Option String
  force : Bool
deriving Repr, DecidableEq

/-- Field validator `validate_cluster_name`: the name with hyphens and dots
removed is alphanumeric and non-empty, the first character is a letter, the
last is alphanumeric, and the name contains no `--`. -/
def validate_cluster_name (v : String) : Bool :=
  pyIsAlnum (v.toList.filter (fun c => c != '-' && c != '.')) &&
  (match v.toList with
    | [] => false
    | c :: _ => c.isAlpha) &&
  (match v.toList.getLast? with
    | none => false
    | some c => c.isAlphanum) &&
  !hasDoubleHyphen v.toList

/-- Field validator `validate_namespace`: like the name check but only hyphens
are stripped before the alphanumeric test. -/
def validate_namespace (v : String) : Bool :=
  pyIsAlnum (v.toList.filter (fun c => c != '-')) &&
  (match v.toList with
    | [] => false
    | c :: _ => c.isAlpha) &&
  (match v.toList.getLast? with
    | none => false
    | some c => c.isAlphanum) &&
  !hasDoubleHyphen v.toList

/-- Field validator `validate_service_account`: no `--` substring. -/
def validate_service_account (v : String) : Bool :=
  !hasDoubleHyphen v.toList

/-- Field validator `validate_kubeconfig`: when a kubeconfig is supplied it
must be decodable base64. -/
def validate_kubeconfig : Option String → Bool
  | none => true
  | some s => b64decodable s

/-- Model validator `validate_kubeconfig_source`: exactly one of `kubeconfig`
and `kubeconfig_vault_path` is truthy. -/
def validate_kubeconfig_source (r : CreateClusterRequest) : Bool :=
  truthy r.kubeconfig != truthy r.kubeconfig_vault_path

/-- Pydantic validation of `CreateClusterRequest`: the declared field length
bounds together with all field and model validators.  Construction of the
model raises (handled as HTTP 400) exactly when this returns `false`. -/
def validateCreateClusterRequest (r : CreateClusterRequest) : Bool :=
  decide (1 ≤ r.name.length) && decide (r.name.length ≤ 253) &&
  decide (1 ≤ r.service_account.length) && decide (r.service_account.length ≤ 255) &&
  decide (1 ≤ r.«namespace».length) && decide (r.«namespace».length ≤ 63) &&
  validate_cluster_name r.name &&
  validate_namespace r.«namespace» &&
  validate_service_account r.service_account &&
  validate_kubeconfig r.kubeconfig &&
  validate_kubeconfig_source r

/- ### Data model (`app/models.py` columns, plus the columns `app/routes.py`
populates on the rows it creates) -/

/-- A persisted `Cluster` row (the columns the orchestrator reads/writes). -/
structure ClusterRow where
  id : Nat
  cluster_name : String
  service_account : String
  «namespace» : String
  status : String
deriving Repr, DecidableEq

/-- A persisted `PlaybookExecution` row (the columns the orchestrator
reads/writes). -/
structure ExecutionRow where
  id : Nat
  playbook_name : String
  status : String
  cluster_id : Nat
  start_time : Nat
  extra_vars : String
  command : String
  pid : Option Nat
  return_code : Option Int
deriving Repr, DecidableEq

/-- A persisted `AuditLog` row. -/
structure AuditRow where
  user_id : String
  action : String
  details : String
  status : String
  cluster_id : Option Nat
deriving Repr, DecidableEq

/-- The persistent store: the three tables plus the id sequences the database
auto-assigns. -/
structure DBState where
  clusters : List ClusterRow
  executions : List ExecutionRow
  audits : List AuditRow
  nextClusterId : Nat
  nextExecutionId : Nat
deriving Repr, DecidableEq

/-- Well-formedness of the store as the schema guarantees it: auto-assigned
ids are below the sequences, every execution references an existing cluster
(non-null foreign key), and cluster ids and names are unique. -/
def DBState.wfb (db : DBState) : Bool :=
  db.clusters.all (fun c => decide (c.id < db.nextClusterId)) &&
  db.executions.all (fun e => decide (e.id < db.nextExecutionId)) &&
  db.executions.all (fun e => db.clusters.any (fun c => c.id == e.cluster_id)) &&
  decide (db.clusters.map ClusterRow.id).Nodup &&
  decide (db.clusters.map ClusterRow.cluster_name).Nodup

/- ### Error taxonomy and the registered error handlers
(`app/routes.py` lines 43-91; the exception classes live in the module
`app/exceptions.py` imported by `routes.py`, which is not shipped under
`src/`). -/

/-- Modelled from the spec: the exception classes of `app/exceptions.py`
(the module `app/routes.py` imports; absent from `src/`, only
`app/utils/exceptions.py` — a different, unimported module — is present).
Each error carries its message; `ExternalServiceError` additionally carries
the failing collaborator's name.  `pydanticValidation` stands for pydantic's
own `ValidationError` raised at request construction, and `unanticipated` for
any exception without a registered handler (Flask answers 500 for those). -/
inductive ApiError where
  | validation (msg : String)
  | pydanticValidation
  | authentication (msg : String)
  | notFound (msg : String)
  | alreadyExists (msg : String)
  | externalService (msg : String) (service : String)
  | unanticipated
deriving Repr, DecidableEq

/-- The message text of an error (Python `str(e)`), as interpolated into
audit-log details. -/
def ApiError.str : ApiError → String
  | .validation m => m
  | .pydanticValidation => "Invalid request data"
  | .authentication m => m
  | .notFound m => m
  | .alreadyExists m => m
  | .externalService m _ => m
  | .unanticipated => "Internal server error"

/-- Shape of the JSON error response produced by the registered handlers. -/
structure ErrorResponse where
  status : Nat
  error_code : String
  service : Option String
deriving Repr, DecidableEq

/-- The error handlers registered on the blueprint (`@bp.errorhandler`,
`app/routes.py` lines 43-91), plus Flask's default 500 response for an
exception no handler matches. -/
def errorResponse : ApiError → ErrorResponse
  | .validation _ => { status := 400, error_code := "VALIDATION_ERROR", service := none }
  | .pydanticValidation => { status := 400, error_code := "VALIDATION_ERROR", service := none }
  | .authentication _ => { status := 401, error_code := "AUTHENTICATION_ERROR", service := none }
  | .notFound _ => { status := 404, error_code := "NOT_FOUND", service := none }
  | .alreadyExists _ => { status := 409, error_code := "ALREADY_EXISTS", service := none }
  | .externalService _ s => { status := 503, error_code := "EXTERNAL_SERVICE_ERROR", service := some s }
  | .unanticipated => { status := 500, error_code := "INTERNAL_SERVER_ERROR", service := none }

/- ### Latest-execution query (`app/routes.py` lines 525-530 and 568-573) -/

/-- Scan of the filtered rows for
`order_by(PlaybookExecution.start_time.desc()).first()`: keep the current
best and replace it only on a strictly later start time.  The SQL query has
no secondary sort key, so among equal start times the embedding determinizes
to the table's row order (the earlier row wins). -/
def selectLatest : ExecutionRow → List ExecutionRow → ExecutionRow
  | b, [] => b
  | b, e :: rest => selectLatest (if b.start_time < e.start_time then e else b) rest

/-- The latest `PlaybookExecution` of a cluster as `check_cluster_status` and
`check_status` compute it: filter by `cluster_id`, order by `start_time`
descending, take the first row. -/
def latest_execution (execs : List ExecutionRow) (cid : Nat) : Option ExecutionRow :=
  match execs.filter (fun e => e.cluster_id == cid) with
  | [] => none
  | e :: rest => some (selectLatest e rest)

/-- Result of `GET /check_cluster_status/<cluster_name>` (database part):
the cluster row and its latest execution. -/
def check_cluster_status (db : DBState) (cluster_name : String) :
    Except ApiError (ClusterRow × Option ExecutionRow) :=
  if cluster_name.isEmpty then
    .error (.validation "Cluster name is required")
  else
    match db.clusters.find? (fun c => c.cluster_name == cluster_name) with
    | none => .error (.notFound ("Cluster " ++ cluster_name ++ " not found"))
    | some c => .ok (c, latest_execution db.executions c.id)

/-- Result of `GET /check_status` (database part): every cluster paired with
its latest execution. -/
def check_status (db : DBState) : List (ClusterRow × Option ExecutionRow) :=
  db.clusters.map (fun c => (c, latest_execution db.executions c.id))

/- ### Playbook runner (`app/routes.py`, `run_playbook_async`) -/

/-- How the child process environment is supplied:
`env=os.environ.copy()` passes a copy of the current process environment. -/
inductive EnvSource where
  | inheritCopy
deriving Repr, DecidableEq

/-- The effect description of the `asyncio.create_subprocess_exec` call made
by `run_playbook_async`: the argument vector, the environment choice, and
whether the function waits for the child before returning (it does not — the
process handle is returned immediately). -/
structure LaunchSpec where
  argv : List String
  env : EnvSource
  waitsForExit : Bool
deriving Repr, DecidableEq

/-- `run_playbook_async`: builds
`["ansible-playbook", path, "-e", "key=<quoted value>", ...]` with each value
passed through `shlex.quote`, launches it without waiting, and returns the
launch handle together with the space-joined command string. -/
def run_playbook_async (playbook_path : String)
    (extra_vars : List (String × String)) : LaunchSpec × String :=
  let cmd := ["ansible-playbook", playbook_path] ++
    extra_vars.flatMap (fun kv => ["-e", kv.1 ++ "=" ++ shlexQuote kv.2])
  ({ argv := cmd, env := .inheritCopy, waitsForExit := false },
   String.intercalate " " cmd)

/- ### The cluster lifecycle orchestrator
(`app/routes.py`, `create_new_cluster`, lines 161-363) -/

/-- The body the inventory service returns on HTTP 200:
`inventory_data.get("id")` and `inventory_data.get("metadata", {})`,
stringified when serialized into extra-vars. -/
structure InvData where
  id : String
  metadata : String
deriving Repr, DecidableEq

/-- Outcome of the inventory HTTP call: a response with a status code and
body, an `aiohttp.ClientError`, or a timeout. -/
inductive InventoryResult where
  | response (code : Nat) (body : InvData)
  | clientError (msg : String)
  | timeout
deriving Repr, DecidableEq

/-- Outcome of the Vault `read_secret_version` call: the secret map on
success, or any exception (message) on failure. -/
inductive VaultResult where
  | ok (secret : List (String × String))
  | err (msg : String)
deriving Repr, DecidableEq

/-- The external collaborators and ambient values one request observes:
the authenticated user, whether the distributed lock is acquired within the
wait window, the inventory response, the contents of `/vault/token` (`none`
when the read raises, with the exception text), the Vault response, the
configured playbook directory, the clock, the child pid, and whether the
subprocess launch raises. -/
structure Env where
  user_id : String
  lockAcquired : Bool
  inventory : InventoryResult
  vaultTokenFile : Option String
  vaultTokenErr : String
  vault : VaultResult
  playbookDir : String
  now : Nat
  pid : Nat
  launchFails : Bool
deriving Repr, DecidableEq

/-- The 201 response body: the created cluster and execution rows. -/
structure SuccessBody where
  cluster : ClusterRow
  execution : ExecutionRow
deriving Repr, DecidableEq

/-- Handler control flow: a returned response or a raised error. -/
inductive Resp where
  | ok (body : SuccessBody)
  | error (e : ApiError)
deriving Repr, DecidableEq

/-- Result of the protected section (`routes.py` lines 190-348): the
response/raise, the final store, the store as visible after each commit (in
order), and call counters for the external collaborators. -/
structure InnerResult where
  result : Resp
  db : DBState
  visible : List DBState
  inventoryCalls : Nat
  vaultReads : Nat
  launches : List LaunchSpec
deriving Repr, DecidableEq

/-- Result of the whole handler: as `InnerResult`, plus the lock-acquire call
count and whether the lock was released. -/
structure HandlerOutcome where
  result : Resp
  db : DBState
  visible : List DBState
  lockAcquireCalls : Nat
  lockReleased : Bool
  inventoryCalls : Nat
  vaultReads : Nat
  launches : List LaunchSpec
deriving Repr, DecidableEq

/-- `log_request` (`app/routes.py` lines 93-105): append an `AuditLog` row
and commit. -/
def log_request (db : DBState) (user_id action details status : String) : DBState :=
  { db with audits := db.audits ++
      [{ user_id := user_id, action := action, details := details,
         status := status, cluster_id := none }] }

/-- An error exit from the protected section: it performs no commit of its
own (the store and visible list pass through unchanged). -/
def errRes (e : ApiError) (db : DBState) (vis : List DBState)
    (inventoryCalls vaultReads : Nat) : InnerResult :=
  { result := .error e, db := db, visible := vis,
    inventoryCalls := inventoryCalls, vaultReads := vaultReads, launches := [] }

/-- Update the execution row with the given id (ORM mutation + commit). -/
def updateExec (l : List ExecutionRow) (eid : Nat)
    (f : ExecutionRow → ExecutionRow) : List ExecutionRow :=
  l.map (fun e => if e.id == eid then f e else e)

/-- The extra-vars mapping passed to the playbook
(`app/routes.py` lines 300-312; identical to the dict serialized at
lines 278-292), every value stringified. -/
def mkExtraVars (req : CreateClusterRequest) (kubeconfig_base64 : String)
    (inv : InvData) : List (String × String) :=
  [("cluster_name", req.name),
   ("service_account", req.service_account),
   ("namespace", req.«namespace»),
   ("kubeconfig_base64", kubeconfig_base64),
   ("force", pyStr req.force),
   ("overwrite", pyStr req.force),
   ("inventory_id", inv.id),
   ("inventory_metadata", inv.metadata)]

/-- The serialized extra-vars payload.  `json.dumps` is a stdlib collaborator;
it is modelled as an opaque order-preserving serialization of the pairs. -/
def serializeVars (l : List (String × String)) : String :=
  String.intercalate "," (l.map (fun kv => kv.1 ++ ":" ++ kv.2))

/-- Steps 5-6 of the orchestrator (`app/routes.py` lines 262-348): insert the
`Cluster` row (status `creating`) and commit; insert the `PlaybookExecution`
row (status `running`, empty command, null pid) and commit; re-serialize the
extra-vars into the row and commit; launch the playbook and, if the launch
does not raise, record command string and pid and commit, then return 201. -/
def proceedPersist (req : CreateClusterRequest) (env : Env) (db : DBState)
    (vis : List DBState) (vaultReads : Nat) (inv : InvData)
    (kubeconfig_base64 : String) : InnerResult :=
  let cid := db.nextClusterId
  let cluster : ClusterRow :=
    { id := cid, cluster_name := req.name,
      service_account := req.service_account, «namespace» := req.«namespace»,
      status := "creating" }
  let db2 := { db with clusters := db.clusters ++ [cluster],
                       nextClusterId := cid + 1 }
  let evars := mkExtraVars req kubeconfig_base64 inv
  let eid := db2.nextExecutionId
  let exec0 : ExecutionRow :=
    { id := eid, playbook_name := "create_cluster.yml", status := "running",
      cluster_id := cid, start_time := env.now,
      extra_vars := serializeVars evars, command := "", pid := none,
      return_code := none }
  let db3 := { db2 with executions := db2.executions ++ [exec0],
                        nextExecutionId := eid + 1 }
  let db4 := { db3 with
    executions := updateExec db3.executions eid
      (fun e => { e with extra_vars := serializeVars evars }) }
  if env.launchFails then
    errRes .unanticipated db4 (vis ++ [db2, db3, db4]) 1 vaultReads
  else
    let launched := run_playbook_async (env.playbookDir ++ "/create_cluster.yml") evars
    let execFinal := { exec0 with command := launched.2, pid := some env.pid }
    let db5 := { db4 with
      executions := updateExec db4.executions eid
        (fun e => { e with command := launched.2, pid := some env.pid }) }
    { result := .ok { cluster := cluster, execution := execFinal },
      db := db5, visible := vis ++ [db2, db3, db4, db5],
      inventoryCalls := 1, vaultReads := vaultReads, launches := [launched.1] }

/-- Step 4 of the orchestrator (`app/routes.py` lines 229-260): resolve the
kubeconfig.  A Vault path takes precedence; the token-file read, the Vault
call, and — because the surrounding `except Exception` re-raises everything
as `ExternalServiceError("vault")` — even the missing-kubeconfig
`ValidationError` all surface as Vault service errors. -/
def proceedKubeconfig (req : CreateClusterRequest) (env : Env) (db : DBState)
    (vis : List DBState) (inv : InvData) : InnerResult :=
  if truthy req.kubeconfig_vault_path then
    match env.vaultTokenFile with
    | none =>
      errRes (.externalService ("Failed to read vault token: " ++ env.vaultTokenErr) "vault")
        db vis 1 0
    | some _ =>
      match env.vault with
      | .err m => errRes (.externalService m "vault") db vis 1 1
      | .ok secret =>
        let kubeconfig_base64 := (secret.lookup "kubeconfig").getD ""
        if kubeconfig_base64.isEmpty then
          errRes (.externalService
              ("No kubeconfig found at Vault path: " ++ req.kubeconfig_vault_path.getD "")
              "vault")
            db vis 1 1
        else
          proceedPersist req env db vis 1 inv kubeconfig_base64
  else if truthy req.kubeconfig then
    proceedPersist req env db vis 0 inv (req.kubeconfig.getD "")
  else
    errRes (.validation "Either kubeconfig or kubeconfig_vault_path must be provided")
      db vis 1 0

/-- Step 3 of the orchestrator (`app/routes.py` lines 206-227): the inventory
existence check.  404 is a not-found failure, any other non-200 status, a
client error, or a timeout is an external-service failure tagged
`inventory`. -/
def proceedInventory (req : CreateClusterRequest) (env : Env) (db : DBState)
    (vis : List DBState) : InnerResult :=
  match env.inventory with
  | .response code body =>
    if code == 404 then
      errRes (.notFound ("Cluster " ++ req.name ++ " not found in inventory")) db vis 1 0
    else if code != 200 then
      errRes (.externalService ("Inventory API returned status " ++ toString code) "inventory")
        db vis 1 0
    else
      proceedKubeconfig req env db vis body
  | .clientError m => errRes (.externalService m "inventory") db vis 1 0
  | .timeout => errRes (.externalService "Inventory API request timed out" "inventory") db vis 1 0

/-- Step 2 onward under the held lock (`app/routes.py` lines 190-348): check
for an existing cluster by name; with `force=false` raise
`ResourceAlreadyExistsError`, with `force=true` delete the existing cluster's
executions and the cluster row inside one transaction and commit, then
proceed to the inventory check. -/
def afterLock (req : CreateClusterRequest) (env : Env) (db : DBState) : InnerResult :=
  match db.clusters.find? (fun c => c.cluster_name == req.name) with
  | some existing =>
    if !req.force then
      errRes (.alreadyExists ("Cluster " ++ req.name ++ " already exists. Use force=true to recreate"))
        db [] 0 0
    else
      let db1 := { db with
        executions := db.executions.filter (fun e => e.cluster_id != existing.id),
        clusters := db.clusters.filter (fun c => c.id != existing.id) }
      proceedInventory req env db1 [db1]
  | none => proceedInventory req env db []

/-- The audit detail text written when the handler fails. -/
def failDetail (e : ApiError) : String :=
  "Failed to create cluster: " ++ e.str

/-- `create_new_cluster` (`app/routes.py` lines 161-363).  Request validation
runs before the lock is touched; a pydantic failure or a lock-acquire
timeout is audited once by the outer handler; any failure under the lock is
audited by the inner handler and again by the outer one, and the lock is
released in the `finally` block in every case. -/
def create_new_cluster (req : CreateClusterRequest) (env : Env) (db : DBState) :
    HandlerOutcome :=
  if validateCreateClusterRequest req then
    if env.lockAcquired then
      let r := afterLock req env db
      match r.result with
      | .ok body =>
        { result := .ok body, db := r.db, visible := r.visible,
          lockAcquireCalls := 1, lockReleased := true,
          inventoryCalls := r.inventoryCalls, vaultReads := r.vaultReads,
          launches := r.launches }
      | .error e =>
        let dbA := log_request r.db env.user_id "create_cluster" (failDetail e) "error"
        let dbB := log_request dbA env.user_id "create_cluster" (failDetail e) "error"
        { result := .error e, db := dbB, visible := r.visible ++ [dbA, dbB],
          lockAcquireCalls := 1, lockReleased := true,
          inventoryCalls := r.inventoryCalls, vaultReads := r.vaultReads,
          launches := r.launches }
    else
      let e := ApiError.validation
        ("Another cluster creation for " ++ req.name ++ " is in progress. Please wait.")
      let db1 := log_request db env.user_id "create_cluster" (failDetail e) "error"
      { result := .error e, db := db1, visible := [db1],
        lockAcquireCalls := 1, lockReleased := false,
        inventoryCalls := 0, vaultReads := 0, launches := [] }
  else
    let db1 := log_request db env.user_id "create_cluster"
      (failDetail .pydanticValidation) "error"
    { result := .error .pydanticValidation, db := db1, visible := [db1],
      lockAcquireCalls := 0, lockReleased := false,
      inventoryCalls := 0, vaultReads := 0, launches := [] }

/-- The HTTP status of a handler outcome: 201 on success, otherwise the
status the registered error handler for the raised class produces. -/
def httpStatus (o : HandlerOutcome) : Nat :=
  match o.result with
  | .ok _ => 201
  | .error e => (errorResponse e).status

/- ### Supporting lemmas about `shlex.quote` -/

theorem sqEncode_ne_nil {l : List Char} (h : l ≠ []) : sqEncode l ≠ [] := by
  cases l with
  | nil => exact absurd rfl h
  | cons c rest => by_cases hc : c == sqChar <;> simp [sqEncode, hc]

theorem sqEncode_inj : ∀ (s t : List Char), sqEncode s = sqEncode t → s = t := by
  intro s
  induction s with
  | nil =>
    intro t h
    cases t with
    | nil => rfl
    | cons b t' =>
      exfalso
      by_cases hb : b == sqChar <;> simp [sqEncode, hb] at h
  | cons a s' ih =>
    intro t h
    cases t with
    | nil =>
      exfalso
      by_cases ha : a == sqChar <;> simp [sqEncode, ha] at h
    | cons b t' =>
      by_cases ha : a == sqChar <;> by_cases hb : b == sqChar <;>
        simp [sqEncode, ha, hb] at h
      · rw [eq_of_beq ha, eq_of_beq hb, ih t' h]
      · exact absurd (beq_iff_eq.mpr h.1.symm) hb
      · exact absurd (beq_iff_eq.mpr h.1) ha
      · rw [h.1, ih t' h.2]

theorem shlexSafe_sqChar : shlexSafe sqChar = false := by decide

theorem shlexQuoteL_inj : ∀ (s t : List Char), shlexQuoteL s = shlexQuoteL t → s = t := by
  intro s t h
  unfold shlexQuoteL at h
  by_cases hs0 : s.isEmpty <;> by_cases ht0 : t.isEmpty <;>
    simp only [hs0, ht0, if_true, if_false, Bool.false_eq_true, ite_false, ite_true] at h
  · rw [List.isEmpty_iff.mp hs0, List.isEmpty_iff.mp ht0]
  · by_cases ht1 : t.all shlexSafe <;> simp only [ht1, ite_true, ite_false] at h
    · exfalso
      have hsq : sqChar ∈ t := by rw [← h]; simp
      have := List.all_eq_true.mp ht1 sqChar hsq
      rw [shlexSafe_sqChar] at this
      exact Bool.false_ne_true this
    · exfalso
      have h2 : ([sqChar] : List Char) = sqEncode t ++ [sqChar] := by
        have := h
        simpa using congrArg List.tail this
      have h3 : ([] : List Char) ++ [sqChar] = sqEncode t ++ [sqChar] := by simpa using h2
      have h4 := List.append_cancel_right h3.symm
      exact sqEncode_ne_nil (fun ht => ht0 (by simp [ht])) h4
  · by_cases hs1 : s.all shlexSafe <;> simp only [hs1, ite_true, ite_false] at h
    · exfalso
      have hsq : sqChar ∈ s := by rw [h]; simp
      have := List.all_eq_true.mp hs1 sqChar hsq
      rw [shlexSafe_sqChar] at this
      exact Bool.false_ne_true this
    · exfalso
      have h2 : sqEncode s ++ [sqChar] = ([sqChar] : List Char) := by
        simpa using congrArg List.tail h
      have h3 : sqEncode s ++ [sqChar] = ([] : List Char) ++ [sqChar] := by simpa using h2
      have h4 := List.append_cancel_right h3
      exact sqEncode_ne_nil (fun hs => hs0 (by simp [hs])) h4
  · by_cases hs1 : s.all shlexSafe <;> by_cases ht1 : t.all shlexSafe <;>
      simp only [hs1, ht1, ite_true, ite_false] at h
    · exact h
    · exfalso
      have hsq : sqChar ∈ s := by rw [h]; simp
      have := List.all_eq_true.mp hs1 sqChar hsq
      rw [shlexSafe_sqChar] at this
      exact Bool.false_ne_true this
    · exfalso
      have hsq : sqChar ∈ t := by rw [← h]; simp
      have := List.all_eq_true.mp ht1 sqChar hsq
      rw [shlexSafe_sqChar] at this
      exact Bool.false_ne_true this
    · have h2 : sqEncode s ++ [sqChar] = sqEncode t ++ [sqChar] := by
        simpa using h
      exact sqEncode_inj s t (List.append_cancel_right h2)

theorem shlexQuote_inj (s t : String) (h : shlexQuote s = shlexQuote t) : s = t := by
  have h1 : shlexQuoteL s.toList = shlexQuoteL t.toList := congrArg String.data h
  exact String.ext (shlexQuoteL_inj s.data t.data h1)

/- ### Supporting lemmas about the latest-execution scan -/

theorem selectLatest_mem (b : ExecutionRow) (l : List ExecutionRow) :
    selectLatest b l ∈ b :: l := by
  induction l generalizing b with
  | nil => simp [selectLatest]
  | cons e rest ih =>
    rw [selectLatest]
    by_cases hb : b.start_time < e.start_time
    · simp only [hb, ite_true]
      rcases List.mem_cons.mp (ih e) with h | h
      · rw [h]; simp
      · simp [h]
    · simp only [hb, ite_false]
      rcases List.mem_cons.mp (ih b) with h | h
      · rw [h]; simp
      · simp [h]

theorem selectLatest_max (b : ExecutionRow) (l : List ExecutionRow) :
    ∀ x ∈ b :: l, x.start_time ≤ (selectLatest b l).start_time := by
  induction l generalizing b with
  | nil => intro x hx; rw [List.mem_singleton.mp hx]; exact le_refl _
  | cons e rest ih =>
    intro x hx
    rw [selectLatest]
    by_cases hb : b.start_time < e.start_time <;>
      simp only [hb, ite_true, ite_false]
    · rcases List.mem_cons.mp hx with h | h
      · rw [h]
        exact le_trans (le_of_lt hb) (ih e e (List.mem_cons_self e rest))
      · exact ih e x h
    · rcases List.mem_cons.mp hx with h | h
      · rw [h]; exact ih b b (List.mem_cons_self b rest)
      · rcases List.mem_cons.mp h with h2 | h2
        · rw [h2]
          exact le_trans (le_of_not_lt hb) (ih b b (List.mem_cons_self b rest))
        · exact ih b x (List.mem_cons.mpr (Or.inr h2))

theorem selectLatest_first (b : ExecutionRow) (l : List ExecutionRow) :
    ∃ l1 l2, b :: l = l1 ++ (selectLatest b l) :: l2 ∧
      ∀ x ∈ l1, x.start_time < (selectLatest b l).start_time := by
  induction l generalizing b with
  | nil => exact ⟨[], [], by simp [selectLatest], by simp⟩
  | cons e rest ih =>
    rw [selectLatest]
    by_cases hb : b.start_time < e.start_time <;>
      simp only [hb, ite_true, ite_false]
    · obtain ⟨m1, m2, heq, hlt⟩ := ih e
      refine ⟨b :: m1, m2, by rw [List.cons_append, ← heq], ?_⟩
      intro x hx
      rcases List.mem_cons.mp hx with h | h
      · rw [h]
        exact lt_of_lt_of_le hb (selectLatest_max e rest e (List.mem_cons_self e rest))
      · exact hlt x h
    · obtain ⟨m1, m2, heq, hlt⟩ := ih b
      cases m1 with
      | nil =>
        simp only [List.nil_append] at heq
        refine ⟨[], e :: rest, ?_, by simp⟩
        rw [List.nil_append, ← (List.cons.injEq _ _ _ _).mp heq |>.1]
      | cons h1 m1' =>
        rw [List.cons_append] at heq
        have hinj := (List.cons.injEq _ _ _ _).mp heq
        refine ⟨b :: e :: m1', m2, ?_, ?_⟩
        · rw [List.cons_append, List.cons_append, ← hinj.2]
        · intro x hx
          have hbmem : b ∈ h1 :: m1' := by rw [hinj.1]; simp
          have hblt := hlt b hbmem
          rcases List.mem_cons.mp hx with h | h
          · rw [h]; exact hblt
          · rcases List.mem_cons.mp h with h2 | h2
            · rw [h2]; exact lt_of_le_of_lt (le_of_not_lt hb) hblt
            · exact hlt x (List.mem_cons.mpr (Or.inr h2))

/- ### Claim C8 -/

/-- C8: every error raised by the HTTP operations maps to exactly the status
code of its class — ValidationError (including pydantic request validation)
to 400, AuthenticationError to 401, ResourceNotFoundError to 404,
ResourceAlreadyExistsError to 409, ExternalServiceError to 503 with the
response tagged with the failing collaborator's name, and any unanticipated
error to 500. -/
theorem error_taxonomy_status_codes :
    (∀ m, (errorResponse (ApiError.validation m)).status = 400) ∧
    (errorResponse ApiError.pydanticValidation).status = 400 ∧
    (∀ m, (errorResponse (ApiError.authentication m)).status = 401) ∧
    (∀ m, (errorResponse (ApiError.notFound m)).status = 404) ∧
    (∀ m, (errorResponse (ApiError.alreadyExists m)).status = 409) ∧
    (∀ m s, (errorResponse (ApiError.externalService m s)).status = 503 ∧
      (errorResponse (ApiError.externalService m s)).service = some s) ∧
    (errorResponse ApiError.unanticipated).status = 500 :=
  ⟨fun _ => rfl, rfl, fun _ => rfl, fun _ => rfl, fun _ => rfl,
   fun _ _ => ⟨rfl, rfl⟩, rfl⟩

/- ### Claim C9 -/

/-- C9: for every mapping passed to the playbook runner, the argument list
shell-escapes every value individually with each key=value pair forming one
argument, the child is launched without waiting with a copy of the current
environment, and the runner returns the launch handle together with the
space-joined command string; the escaping is lossless (injective). -/
theorem run_playbook_cmd_construction (path : String) (vars : List (String × String)) :
    (run_playbook_async path vars).1.argv =
      ["ansible-playbook", path] ++
        vars.flatMap (fun kv => ["-e", kv.1 ++ "=" ++ shlexQuote kv.2]) ∧
    (run_playbook_async path vars).1.env = EnvSource.inheritCopy ∧
    (run_playbook_async path vars).1.waitsForExit = false ∧
    (run_playbook_async path vars).2 =
      String.intercalate " " (run_playbook_async path vars).1.argv ∧
    ∀ s t : String, shlexQuote s = shlexQuote t → s = t :=
  ⟨rfl, rfl, rfl, rfl, shlexQuote_inj⟩

/-- Evaluation of the C9 theorem at a concrete input: a value with a space is
quoted as a unit inside its pair. -/
theorem run_playbook_cmd_construction_witness :
    (run_playbook_async "/playbooks/create_cluster.yml"
        [("cluster_name", "demo one")]).1.argv =
      ["ansible-playbook", "/playbooks/create_cluster.yml", "-e",
       "cluster_name=" ++ shlexQuote "demo one"] :=
  (run_playbook_cmd_construction "/playbooks/create_cluster.yml"
    [("cluster_name", "demo one")]).1.trans (by decide)

/- ### Claim C6 -/

/-- A row of cluster 7 used in the C6 scenarios. -/
def c6row1 : ExecutionRow :=
  { id := 1, playbook_name := "create_cluster.yml", status := "running",
    cluster_id := 7, start_time := 100, extra_vars := "", command := "",
    pid := none, return_code := none }

/-- A second row of cluster 7 with the same start time and a larger id. -/
def c6row2 : ExecutionRow := { c6row1 with id := 2 }

/-- A third row of cluster 7 with a strictly later start time. -/
def c6row3 : ExecutionRow := { c6row1 with id := 3, start_time := 200 }

/-- C6 counterexample: two executions of the same cluster with identical
start timestamps; the query returns the first-inserted row (id 1), not the
row with the maximum id (id 2), so the claimed tie-break by maximum id does
not hold. -/
theorem latest_execution_tie_not_max_id_cex :
    (latest_execution [c6row1, c6row2] 7).map ExecutionRow.id = some 1 ∧
    c6row1.start_time = c6row2.start_time ∧ c6row1.id < c6row2.id := by decide

/-- C6 (amended): the latest execution reported for a cluster is an execution
of that cluster with the maximum start timestamp; among identical start
timestamps the selection is by table order — every row listed before the
selected one has a strictly smaller start time, so the earliest-inserted
maximal row wins (not the one with the maximum id). -/
theorem latest_execution_max_start_first_row (execs : List ExecutionRow) (cid : Nat)
    (e : ExecutionRow) (h : latest_execution execs cid = some e) :
    e ∈ execs ∧ e.cluster_id = cid ∧
    (∀ x ∈ execs, x.cluster_id = cid → x.start_time ≤ e.start_time) ∧
    ∃ l1 l2, execs.filter (fun x => x.cluster_id == cid) = l1 ++ e :: l2 ∧
      ∀ x ∈ l1, x.start_time < e.start_time := by
  unfold latest_execution at h
  cases hF : execs.filter (fun x => x.cluster_id == cid) with
  | nil => rw [hF] at h; exact absurd h (by simp)
  | cons b rest =>
    rw [hF] at h
    obtain rfl : selectLatest b rest = e := by injection h
    have hmem : selectLatest b rest ∈ execs.filter (fun x => x.cluster_id == cid) := by
      rw [hF]; exact selectLatest_mem b rest
    refine ⟨List.mem_of_mem_filter hmem, ?_, ?_, ?_⟩
    · have hp := (List.mem_filter.mp hmem).2
      exact beq_iff_eq.mp hp
    · intro x hx hcl
      have hxf : x ∈ execs.filter (fun x => x.cluster_id == cid) :=
        List.mem_filter.mpr ⟨hx, by simp [hcl]⟩
      rw [hF] at hxf
      exact selectLatest_max b rest x hxf
    · obtain ⟨l1, l2, heq, hlt⟩ := selectLatest_first b rest
      exact ⟨l1, l2, heq, hlt⟩

/-- Evaluation of the amended C6 theorem at a concrete input with two rows of
the same cluster and distinct start times. -/
theorem latest_execution_max_start_first_row_witness :
    c6row3 ∈ ([c6row1, c6row3] : List ExecutionRow) ∧ c6row3.cluster_id = 7 ∧
    (∀ x ∈ ([c6row1, c6row3] : List ExecutionRow),
      x.cluster_id = 7 → x.start_time ≤ c6row3.start_time) ∧
    ∃ l1 l2, ([c6row1, c6row3] : List ExecutionRow).filter
        (fun x => x.cluster_id == 7) = l1 ++ c6row3 :: l2 ∧
      ∀ x ∈ l1, x.start_time < c6row3.start_time :=
  latest_execution_max_start_first_row [c6row1, c6row3] 7 c6row3 (by decide)

/- ### Claim C7 -/

/-- The C7 request: kubeconfig supplied through a Vault path. -/
def c7req : CreateClusterRequest :=
  { name := "demo", service_account := "sa1", «namespace» := "ns1",
    kubeconfig := none, kubeconfig_vault_path := some "secret/kc",
    force := false }

/-- The C7 environment: every collaborator succeeds, but the secret map the
store returns has no `kubeconfig` value. -/
def c7env : Env :=
  { user_id := "u1", lockAcquired := true,
    inventory := .response 200 { id := "i1", metadata := "m1" },
    vaultTokenFile := some "tok", vaultTokenErr := "",
    vault := .ok [("other", "x")], playbookDir := "/playbooks", now := 5,
    pid := 42, launchFails := false }

/-- The C7 store: empty. -/
def c7db : DBState :=
  { clusters := [], executions := [], audits := [], nextClusterId := 1,
    nextExecutionId := 1 }

/-- C7 (code bug): when the secret store responds successfully but the
returned map has no `kubeconfig` value, the handler's own
`ValidationError` is swallowed by the surrounding `except Exception` and
re-raised as `ExternalServiceError` tagged `vault`, so the request fails
with 503, not with the 400 a validation failure would produce. -/
theorem vault_missing_kubeconfig_maps_to_503 :
    (create_new_cluster c7req c7env c7db).result =
      .error (.externalService "No kubeconfig found at Vault path: secret/kc" "vault") ∧
    httpStatus (create_new_cluster c7req c7env c7db) = 503 ∧
    (errorResponse (ApiError.validation
      "No kubeconfig found at Vault path: secret/kc")).status = 400 := by decide

/- ### Claim C4 -/

/-- The C4 request: both kubeconfig sources supplied. -/
def c4req : CreateClusterRequest :=
  { name := "demo", service_account := "sa1", «namespace» := "ns1",
    kubeconfig := some "dGVzdA==", kubeconfig_vault_path := some "secret/kc",
    force := false }

/-- The C4 environment: the lock would be available, every collaborator would
succeed — none of them is reached. -/
def c4env : Env :=
  { user_id := "u1", lockAcquired := true,
    inventory := .response 200 { id := "i1", metadata := "m1" },
    vaultTokenFile := some "tok", vaultTokenErr := "",
    vault := .ok [("kubeconfig", "dGVzdA==")], playbookDir := "/playbooks",
    now := 5, pid := 42, launchFails := false }

/-- The C4 store: empty. -/
def c4db : DBState :=
  { clusters := [], executions := [], audits := [], nextClusterId := 1,
    nextExecutionId := 1 }

/-- C4 counterexample: a request supplying both kubeconfig sources is
rejected with 400 before the lock is touched, but the persistent store is
mutated — the outer exception handler writes an audit-log row — so the
claim's "no database mutation is made" is false as stated. -/
theorem kubeconfig_both_sources_mutates_db_cex :
    httpStatus (create_new_cluster c4req c4env c4db) = 400 ∧
    (create_new_cluster c4req c4env c4db).lockAcquireCalls = 0 ∧
    (create_new_cluster c4req c4env c4db).inventoryCalls = 0 ∧
    (create_new_cluster c4req c4env c4db).vaultReads = 0 ∧
    ¬ (create_new_cluster c4req c4env c4db).db = c4db := by decide

/-- C4 (amended): a creation request supplying both kubeconfig sources or
neither is answered 400, the distributed lock is never acquired (zero
lock-acquire calls), no external call is made and no playbook launched, and
the only database write is the audit-log row recorded by the error
handler — Cluster and PlaybookExecution rows are untouched. -/
theorem kubeconfig_source_validation_fails_fast (req : CreateClusterRequest)
    (env : Env) (db : DBState)
    (hsrc : truthy req.kubeconfig = truthy req.kubeconfig_vault_path) :
    httpStatus (create_new_cluster req env db) = 400 ∧
    (create_new_cluster req env db).lockAcquireCalls = 0 ∧
    (create_new_cluster req env db).inventoryCalls = 0 ∧
    (create_new_cluster req env db).vaultReads = 0 ∧
    (create_new_cluster req env db).launches = [] ∧
    (create_new_cluster req env db).db.clusters = db.clusters ∧
    (create_new_cluster req env db).db.executions = db.executions ∧
    (create_new_cluster req env db).db.audits = db.audits ++
      [{ user_id := env.user_id, action := "create_cluster",
         details := failDetail .pydanticValidation, status := "error",
         cluster_id := none }] := by
  have hv : validateCreateClusterRequest req = false := by
    simp [validateCreateClusterRequest, validate_kubeconfig_source, hsrc]
  simp [create_new_cluster, hv, httpStatus, log_request, errorResponse]

/-- Evaluation of the amended C4 theorem at a concrete request supplying both
kubeconfig sources. -/
theorem kubeconfig_source_validation_fails_fast_witness :
    truthy c4req.kubeconfig = truthy c4req.kubeconfig_vault_path ∧
    httpStatus (create_new_cluster c4req c4env c4db) = 400 ∧
    (create_new_cluster c4req c4env c4db).lockAcquireCalls = 0 := by
  have h := kubeconfig_source_validation_fails_fast c4req c4env c4db (by decide)
  exact ⟨by decide, h.1, h.2.1⟩

/- ### Claim C2 -/

/-- C2: a creation request naming an existing cluster with `force=false` is
answered 409 and leaves every Cluster and PlaybookExecution row untouched;
no external call is made and nothing is launched; the only writes are the
two audit-log rows appended by the inner and outer error handlers. -/
theorem duplicate_cluster_conflict_no_mutation (req : CreateClusterRequest)
    (env : Env) (db : DBState) (c : ClusterRow)
    (hval : validateCreateClusterRequest req = true)
    (hlock : env.lockAcquired = true)
    (hfind : db.clusters.find? (fun x => x.cluster_name == req.name) = some c)
    (hforce : req.force = false) :
    httpStatus (create_new_cluster req env db) = 409 ∧
    (create_new_cluster req env db).db.clusters = db.clusters ∧
    (create_new_cluster req env db).db.executions = db.executions ∧
    (create_new_cluster req env db).inventoryCalls = 0 ∧
    (create_new_cluster req env db).vaultReads = 0 ∧
    (create_new_cluster req env db).launches = [] ∧
    (create_new_cluster req env db).db.audits = db.audits ++
      [{ user_id := env.user_id, action := "create_cluster",
         details := failDetail (.alreadyExists
           ("Cluster " ++ req.name ++ " already exists. Use force=true to recreate")),
         status := "error", cluster_id := none },
       { user_id := env.user_id, action := "create_cluster",
         details := failDetail (.alreadyExists
           ("Cluster " ++ req.name ++ " already exists. Use force=true to recreate")),
         status := "error", cluster_id := none }] := by
  simp [create_new_cluster, hval, hlock, afterLock, hfind, hforce, errRes,
    log_request, httpStatus, errorResponse]

/-- The C2 cluster row already present in the store. -/
def c2cluster : ClusterRow :=
  { id := 1, cluster_name := "demo", service_account := "sa1",
    «namespace» := "ns1", status := "active" }

/-- The C2 request: same name, `force=false`. -/
def c2req : CreateClusterRequest :=
  { name := "demo", service_account := "sa1", «namespace» := "ns1",
    kubeconfig := some "dGVzdA==", kubeconfig_vault_path := none,
    force := false }

/-- The C2 environment. -/
def c2env : Env :=
  { user_id := "u1", lockAcquired := true,
    inventory := .response 200 { id := "i1", metadata := "m1" },
    vaultTokenFile := some "tok", vaultTokenErr := "",
    vault := .ok [("kubeconfig", "dGVzdA==")], playbookDir := "/playbooks",
    now := 5, pid := 42, launchFails := false }

/-- The C2 store: the named cluster already exists. -/
def c2db : DBState :=
  { clusters := [c2cluster], executions := [], audits := [],
    nextClusterId := 2, nextExecutionId := 1 }

/-- Evaluation of the C2 theorem at a concrete duplicate request. -/
theorem duplicate_cluster_conflict_no_mutation_witness :
    httpStatus (create_new_cluster c2req c2env c2db) = 409 ∧
    (create_new_cluster c2req c2env c2db).db.clusters = c2db.clusters ∧
    (create_new_cluster c2req c2env c2db).db.executions = c2db.executions := by
  have h := duplicate_cluster_conflict_no_mutation c2req c2env c2db c2cluster
    (by decide) (by decide) (by decide) (by decide)
  exact ⟨h.1, h.2.1, h.2.2.1⟩

/- ### Shape lemmas for the handler wrapper -/

theorem create_result_after_lock (req : CreateClusterRequest) (env : Env)
    (db : DBState) (hval : validateCreateClusterRequest req = true)
    (hlock : env.lockAcquired = true) :
    (create_new_cluster req env db).result = (afterLock req env db).result := by
  unfold create_new_cluster
  rw [hval, hlock]
  simp only [if_true]
  cases hX : (afterLock req env db).result with
  | ok body => rfl
  | error e => rfl

theorem create_lock_released (req : CreateClusterRequest) (env : Env)
    (db : DBState) (hval : validateCreateClusterRequest req = true)
    (hlock : env.lockAcquired = true) :
    (create_new_cluster req env db).lockReleased = true := by
  unfold create_new_cluster
  rw [hval, hlock]
  simp only [if_true]
  cases hX : (afterLock req env db).result with
  | ok body => rfl
  | error e => rfl

theorem create_db_error (req : CreateClusterRequest) (env : Env) (db : DBState)
    (e : ApiError) (hval : validateCreateClusterRequest req = true)
    (hlock : env.lockAcquired = true)
    (hres : (afterLock req env db).result = .error e) :
    (create_new_cluster req env db).db =
      log_request (log_request (afterLock req env db).db env.user_id
        "create_cluster" (failDetail e) "error") env.user_id "create_cluster"
        (failDetail e) "error" := by
  unfold create_new_cluster
  rw [hval, hlock]
  simp only [if_true]
  rw [hres]

theorem create_visible_error (req : CreateClusterRequest) (env : Env)
    (db : DBState) (e : ApiError) (hval : validateCreateClusterRequest req = true)
    (hlock : env.lockAcquired = true)
    (hres : (afterLock req env db).result = .error e) :
    (create_new_cluster req env db).visible =
      (afterLock req env db).visible ++
        [log_request (afterLock req env db).db env.user_id "create_cluster"
           (failDetail e) "error",
         log_request (log_request (afterLock req env db).db env.user_id
           "create_cluster" (failDetail e) "error") env.user_id
           "create_cluster" (failDetail e) "error"] := by
  unfold create_new_cluster
  rw [hval, hlock]
  simp only [if_true]
  rw [hres]

/- ### The protected section never writes audit rows of its own -/

theorem proceedPersist_audits (req : CreateClusterRequest) (env : Env)
    (db : DBState) (vis : List DBState) (vr : Nat) (inv : InvData) (k : String) :
    (proceedPersist req env db vis vr inv k).db.audits = db.audits := by
  unfold proceedPersist
  split <;> rfl

theorem proceedKubeconfig_audits (req : CreateClusterRequest) (env : Env)
    (db : DBState) (vis : List DBState) (inv : InvData) :
    (proceedKubeconfig req env db vis inv).db.audits = db.audits := by
  unfold proceedKubeconfig
  split
  · split
    · rfl
    · split
      · rfl
      · dsimp only
        split
        · rfl
        · exact proceedPersist_audits req env db vis 1 inv _
  · split
    · exact proceedPersist_audits req env db vis 0 inv _
    · rfl

theorem proceedInventory_audits (req : CreateClusterRequest) (env : Env)
    (db : DBState) (vis : List DBState) :
    (proceedInventory req env db vis).db.audits = db.audits := by
  unfold proceedInventory
  repeat' split
  all_goals first
    | rfl
    | simp [errRes, proceedKubeconfig_audits]

theorem afterLock_audits (req : CreateClusterRequest) (env : Env) (db : DBState) :
    (afterLock req env db).db.audits = db.audits := by
  unfold afterLock
  repeat' split
  all_goals first
    | rfl
    | simp [errRes, proceedInventory_audits]

/- ### Claim C5 -/

/-- C5: whenever any step after lock acquisition fails — existence check,
force delete, inventory call, vault fetch, database writes, or playbook
launch — the handler records the action and the failure detail in the audit
log (the inner and outer handlers each append one row) before the error
propagates, and the lock is released by the `finally` block. -/
theorem failure_after_lock_audits_and_releases (req : CreateClusterRequest)
    (env : Env) (db : DBState) (e : ApiError)
    (hval : validateCreateClusterRequest req = true)
    (hlock : env.lockAcquired = true)
    (herr : (create_new_cluster req env db).result = .error e) :
    (create_new_cluster req env db).lockReleased = true ∧
    (create_new_cluster req env db).db.audits = db.audits ++
      [{ user_id := env.user_id, action := "create_cluster",
         details := failDetail e, status := "error", cluster_id := none },
       { user_id := env.user_id, action := "create_cluster",
         details := failDetail e, status := "error", cluster_id := none }] := by
  have hres : (afterLock req env db).result = .error e := by
    rw [← create_result_after_lock req env db hval hlock]
    exact herr
  refine ⟨create_lock_released req env db hval hlock, ?_⟩
  rw [create_db_error req env db e hval hlock hres]
  simp [log_request, afterLock_audits]

/-- The C5 request. -/
def c5req : CreateClusterRequest :=
  { name := "demo", service_account := "sa1", «namespace» := "ns1",
    kubeconfig := some "dGVzdA==", kubeconfig_vault_path := none,
    force := false }

/-- The C5 environment: the lock is acquired, then the inventory lookup
answers 404, so a step after lock acquisition fails. -/
def c5env : Env :=
  { user_id := "u1", lockAcquired := true,
    inventory := .response 404 { id := "", metadata := "" },
    vaultTokenFile := some "tok", vaultTokenErr := "",
    vault := .ok [("kubeconfig", "dGVzdA==")], playbookDir := "/playbooks",
    now := 5, pid := 42, launchFails := false }

/-- The C5 store: empty. -/
def c5db : DBState :=
  { clusters := [], executions := [], audits := [], nextClusterId := 1,
    nextExecutionId := 1 }

/-- Evaluation of the C5 theorem at a concrete post-lock failure (inventory
404). -/
theorem failure_after_lock_audits_and_releases_witness :
    (create_new_cluster c5req c5env c5db).lockReleased = true ∧
    (create_new_cluster c5req c5env c5db).db.audits = c5db.audits ++
      [{ user_id := c5env.user_id, action := "create_cluster",
         details := failDetail (.notFound "Cluster demo not found in inventory"),
         status := "error", cluster_id := none },
       { user_id := c5env.user_id, action := "create_cluster",
         details := failDetail (.notFound "Cluster demo not found in inventory"),
         status := "error", cluster_id := none }] :=
  failure_after_lock_audits_and_releases c5req c5env c5db
    (.notFound "Cluster demo not found in inventory")
    (by decide) (by decide) (by decide)


/- ### Well-formedness unpacking and filter helpers -/

theorem wfb_spec {db : DBState} (h : db.wfb = true) :
    (∀ c ∈ db.clusters, c.id < db.nextClusterId) ∧
    (∀ e ∈ db.executions, e.id < db.nextExecutionId) ∧
    (∀ e ∈ db.executions, ∃ c ∈ db.clusters, c.id = e.cluster_id) ∧
    (db.clusters.map ClusterRow.id).Nodup ∧
    (db.clusters.map ClusterRow.cluster_name).Nodup := by
  simp only [DBState.wfb, Bool.and_eq_true, List.all_eq_true, decide_eq_true_eq,
    List.any_eq_true, beq_iff_eq] at h
  obtain ⟨⟨⟨⟨h1, h2⟩, h3⟩, h4⟩, h5⟩ := h
  exact ⟨h1, h2, h3, h4, h5⟩

theorem no_cluster_named_after_delete (db : DBState) (c : ClusterRow) (n : String)
    (hnodup : (db.clusters.map ClusterRow.cluster_name).Nodup)
    (hc : c ∈ db.clusters) (hn : c.cluster_name = n) :
    (db.clusters.filter (fun x => x.id != c.id)).filter
      (fun x => x.cluster_name == n) = [] := by
  apply List.filter_eq_nil_iff.mpr
  intro x hx hxn
  have hx1 : x ∈ db.clusters := List.mem_of_mem_filter hx
  have hx2 := (List.mem_filter.mp hx).2
  have hxeq : x.cluster_name = n := beq_iff_eq.mp hxn
  have hxc : x = c := List.inj_on_of_nodup_map hnodup hx1 hc (by rw [hxeq, hn])
  rw [hxc] at hx2
  simp at hx2

theorem execs_filter_deleted (l : List ExecutionRow) (i : Nat) :
    (l.filter (fun e => e.cluster_id != i)).filter (fun e => e.cluster_id == i) = [] := by
  apply List.filter_eq_nil_iff.mpr
  intro e he hei
  have h2 := (List.mem_filter.mp he).2
  rw [beq_iff_eq.mp hei] at h2
  simp at h2

/- ### Claim C10 -/

/-- The inventory call fails: a non-200 response (404 included), a client
error, or a timeout. -/
def inventoryFails : InventoryResult → Bool
  | .response code _ => code != 200
  | .clientError _ => true
  | .timeout => true

/-- The Vault kubeconfig resolution fails: the request uses a Vault path and
the token-file read fails, the Vault call fails, or the returned secret has
no kubeconfig value. -/
def vaultFetchFails (req : CreateClusterRequest) (env : Env) : Bool :=
  truthy req.kubeconfig_vault_path &&
    (env.vaultTokenFile.isNone ||
      (match env.vault with
       | .err _ => true
       | .ok secret => ((secret.lookup "kubeconfig").getD "").isEmpty))

theorem proceed_fails_err (req : CreateClusterRequest) (env : Env)
    (db : DBState) (vis : List DBState)
    (hfail : (inventoryFails env.inventory || vaultFetchFails req env) = true) :
    ∃ e ic vr, proceedInventory req env db vis = errRes e db vis ic vr := by
  unfold proceedInventory
  rcases hInv : env.inventory with ⟨code, body⟩ | m | _ <;>
    rw [hInv] at hfail <;> dsimp only
  · by_cases h404 : code = 404
    · exact ⟨.notFound ("Cluster " ++ req.name ++ " not found in inventory"), 1, 0,
        by simp [h404]⟩
    · by_cases h200 : code = 200
      · subst h200
        have hv : vaultFetchFails req env = true := by
          simpa [inventoryFails] using hfail
        unfold vaultFetchFails at hv
        rw [Bool.and_eq_true] at hv
        obtain ⟨hvp, hrest⟩ := hv
        have h1 : ((200 : Nat) == 404) = false := by decide
        have h2 : ((200 : Nat) != 200) = false := by decide
        simp only [h1, h2, Bool.false_eq_true, if_false]
        unfold proceedKubeconfig
        rw [hvp]
        simp only [if_true]
        rcases hTok : env.vaultTokenFile with _ | tok <;> dsimp only
        · exact ⟨.externalService
            ("Failed to read vault token: " ++ env.vaultTokenErr) "vault", 1, 0, rfl⟩
        · rw [hTok] at hrest
          simp only [Option.isNone_some, Bool.false_or] at hrest
          rcases hVt : env.vault with secret | m <;> dsimp only
          · rw [hVt] at hrest
            dsimp only at hrest
            exact ⟨.externalService
              ("No kubeconfig found at Vault path: " ++ req.kubeconfig_vault_path.getD "")
              "vault", 1, 1, by simp [hrest]⟩
          · exact ⟨.externalService m "vault", 1, 1, rfl⟩
      · have h1 : (code == 404) = false := by simp [h404]
        have h2 : (code != 200) = true := by simp [h200]
        exact ⟨.externalService ("Inventory API returned status " ++ toString code)
          "inventory", 1, 0, by simp [h1, h2]⟩
  · exact ⟨.externalService m "inventory", 1, 0, rfl⟩
  · exact ⟨.externalService "Inventory API request timed out" "inventory", 1, 0, rfl⟩

/-- C10: a force recreation commits the deletion of the prior cluster and its
executions before the inventory check and secret fetch are attempted; if the
inventory or Vault interaction then fails, the request errors but the prior
rows stay deleted — the store ends with no cluster row of that name, and the
first committed state already shows the deletion. -/
theorem force_failed_request_leaves_no_cluster (req : CreateClusterRequest)
    (env : Env) (db : DBState) (c : ClusterRow)
    (hwf : db.wfb = true)
    (hval : validateCreateClusterRequest req = true)
    (hlock : env.lockAcquired = true)
    (hfind : db.clusters.find? (fun x => x.cluster_name == req.name) = some c)
    (hforce : req.force = true)
    (hfail : (inventoryFails env.inventory || vaultFetchFails req env) = true) :
    (∃ e, (create_new_cluster req env db).result = .error e) ∧
    (create_new_cluster req env db).db.clusters.filter
      (fun x => x.cluster_name == req.name) = [] ∧
    (create_new_cluster req env db).db.executions.filter
      (fun x => x.cluster_id == c.id) = [] ∧
    (create_new_cluster req env db).visible.head? = some
      { db with
        executions := db.executions.filter (fun e => e.cluster_id != c.id),
        clusters := db.clusters.filter (fun x => x.id != c.id) } := by
  have hAL : afterLock req env db =
      proceedInventory req env
        { db with
          executions := db.executions.filter (fun e => e.cluster_id != c.id),
          clusters := db.clusters.filter (fun x => x.id != c.id) }
        [{ db with
          executions := db.executions.filter (fun e => e.cluster_id != c.id),
          clusters := db.clusters.filter (fun x => x.id != c.id) }] := by
    unfold afterLock
    rw [hfind]
    simp [hforce]
  obtain ⟨e, ic, vr, hErr⟩ := proceed_fails_err req env
    { db with
      executions := db.executions.filter (fun e => e.cluster_id != c.id),
      clusters := db.clusters.filter (fun x => x.id != c.id) }
    [{ db with
      executions := db.executions.filter (fun e => e.cluster_id != c.id),
      clusters := db.clusters.filter (fun x => x.id != c.id) }] hfail
  have hres : (afterLock req env db).result = .error e := by
    rw [hAL, hErr]
    rfl
  have hw := wfb_spec hwf
  have hcmem : c ∈ db.clusters := List.mem_of_find?_eq_some hfind
  have hcname : c.cluster_name = req.name := by
    simpa using List.find?_some hfind
  refine ⟨⟨e, ?_⟩, ?_, ?_, ?_⟩
  · rw [create_result_after_lock req env db hval hlock]
    exact hres
  · rw [create_db_error req env db e hval hlock hres]
    simp only [log_request]
    rw [hAL, hErr]
    exact no_cluster_named_after_delete db c req.name hw.2.2.2.2 hcmem hcname
  · rw [create_db_error req env db e hval hlock hres]
    simp only [log_request]
    rw [hAL, hErr]
    exact execs_filter_deleted db.executions c.id
  · rw [create_visible_error req env db e hval hlock hres]
    rw [hAL, hErr]
    rfl

/-- The C10 pre-existing cluster. -/
def c10cluster : ClusterRow :=
  { id := 1, cluster_name := "demo", service_account := "sa1",
    «namespace» := "ns1", status := "active" }

/-- The C10 pre-existing execution of that cluster. -/
def c10exec : ExecutionRow :=
  { id := 1, playbook_name := "create_cluster.yml", status := "running",
    cluster_id := 1, start_time := 3, extra_vars := "", command := "",
    pid := some 7, return_code := none }

/-- The C10 request: same name with `force=true`. -/
def c10req : CreateClusterRequest :=
  { name := "demo", service_account := "sa1", «namespace» := "ns1",
    kubeconfig := some "dGVzdA==", kubeconfig_vault_path := none,
    force := true }

/-- The C10 environment: lock acquired, inventory answers 404. -/
def c10env : Env :=
  { user_id := "u1", lockAcquired := true,
    inventory := .response 404 { id := "", metadata := "" },
    vaultTokenFile := some "tok", vaultTokenErr := "",
    vault := .ok [("kubeconfig", "dGVzdA==")], playbookDir := "/playbooks",
    now := 5, pid := 42, launchFails := false }

/-- The C10 store: the cluster and its execution exist. -/
def c10db : DBState :=
  { clusters := [c10cluster], executions := [c10exec], audits := [],
    nextClusterId := 2, nextExecutionId := 2 }

/-- Evaluation of the C10 theorem: after the failed force recreation the
cluster row and its execution are gone. -/
theorem force_failed_request_leaves_no_cluster_witness :
    (∃ e, (create_new_cluster c10req c10env c10db).result = .error e) ∧
    (create_new_cluster c10req c10env c10db).db.clusters.filter
      (fun x => x.cluster_name == c10req.name) = [] ∧
    (create_new_cluster c10req c10env c10db).db.executions.filter
      (fun x => x.cluster_id == c10cluster.id) = [] := by
  have h := force_failed_request_leaves_no_cluster c10req c10env c10db c10cluster
    (by decide) (by decide) (by decide) (by decide) (by decide) (by decide)
  exact ⟨h.1, h.2.1, h.2.2.1⟩



/- ### Claim C3 -/

/-- Orphan-freedom at the table level: every execution row references an
existing cluster row (the invariant of the spec's data model). -/
def orphanFreeL (cls : List ClusterRow) (exs : List ExecutionRow) : Prop :=
  ∀ e ∈ exs, ∃ cl ∈ cls, cl.id = e.cluster_id

/-- No cluster row carries the given id (the deleted cluster stays gone). -/
def avoidsIdL (i : Nat) (cls : List ClusterRow) : Prop :=
  ∀ cl ∈ cls, cl.id ≠ i

theorem orphanFreeL_addCluster (cls : List ClusterRow) (exs : List ExecutionRow)
    (cl : ClusterRow) (h : orphanFreeL cls exs) : orphanFreeL (cls ++ [cl]) exs := by
  intro e he
  obtain ⟨p, hp, hpe⟩ := h e he
  exact ⟨p, List.mem_append_left _ hp, hpe⟩

theorem avoidsIdL_addCluster (cls : List ClusterRow) (cl : ClusterRow) (i : Nat)
    (h : avoidsIdL i cls) (hcl : cl.id ≠ i) : avoidsIdL i (cls ++ [cl]) := by
  intro p hp
  rcases List.mem_append.mp hp with h1 | h1
  · exact h p h1
  · rw [List.mem_singleton.mp h1]
    exact hcl

theorem orphanFreeL_addExec (cls : List ClusterRow) (exs : List ExecutionRow)
    (x : ExecutionRow) (h : orphanFreeL cls exs)
    (hx : ∃ cl ∈ cls, cl.id = x.cluster_id) : orphanFreeL cls (exs ++ [x]) := by
  intro e he
  rcases List.mem_append.mp he with h1 | h1
  · exact h e h1
  · rw [List.mem_singleton.mp h1]
    exact hx

theorem orphanFreeL_updateExec (cls : List ClusterRow) (l : List ExecutionRow)
    (eid : Nat) (f : ExecutionRow → ExecutionRow)
    (hf : ∀ e, (f e).cluster_id = e.cluster_id) (h : orphanFreeL cls l) :
    orphanFreeL cls (updateExec l eid f) := by
  intro e he
  unfold updateExec at he
  obtain ⟨e0, he0, rfl⟩ := List.mem_map.mp he
  have hc : (if e0.id == eid then f e0 else e0).cluster_id = e0.cluster_id := by
    split
    · exact hf e0
    · rfl
  rw [hc]
  exact h e0 he0

theorem proceedPersist_inv (req : CreateClusterRequest) (env : Env)
    (db : DBState) (vis : List DBState) (vr : Nat) (inv : InvData) (k : String)
    (i : Nat) (hOF : orphanFreeL db.clusters db.executions)
    (hAv : avoidsIdL i db.clusters) (hfresh : db.nextClusterId ≠ i) :
    (orphanFreeL (proceedPersist req env db vis vr inv k).db.clusters
        (proceedPersist req env db vis vr inv k).db.executions ∧
      avoidsIdL i (proceedPersist req env db vis vr inv k).db.clusters) ∧
    ∀ s ∈ (proceedPersist req env db vis vr inv k).visible,
      s ∈ vis ∨ (orphanFreeL s.clusters s.executions ∧ avoidsIdL i s.clusters) := by
  have hC1 : orphanFreeL
      (db.clusters ++
        [({ id := db.nextClusterId, cluster_name := req.name,
            service_account := req.service_account,
            «namespace» := req.«namespace»,
            status := "creating" } : ClusterRow)])
      db.executions :=
    orphanFreeL_addCluster _ _ _ hOF
  have hA1 : avoidsIdL i
      (db.clusters ++
        [({ id := db.nextClusterId, cluster_name := req.name,
            service_account := req.service_account,
            «namespace» := req.«namespace»,
            status := "creating" } : ClusterRow)]) :=
    avoidsIdL_addCluster _ _ _ hAv hfresh
  have hC2 := orphanFreeL_addExec _ _
    ({ id := db.nextExecutionId, playbook_name := "create_cluster.yml",
       status := "running", cluster_id := db.nextClusterId,
       start_time := env.now,
       extra_vars := serializeVars (mkExtraVars req k inv), command := "",
       pid := none, return_code := none } : ExecutionRow) hC1
    ⟨_, List.mem_append_right _ (List.mem_singleton_self _), rfl⟩
  have hC3 := orphanFreeL_updateExec _ _ db.nextExecutionId
    (fun e =>
      { e with
        extra_vars := serializeVars (mkExtraVars req k inv) })
    (fun e => rfl) hC2
  have hC4 := orphanFreeL_updateExec _ _ db.nextExecutionId
    (fun e =>
      { e with
        command := (run_playbook_async
          (env.playbookDir ++ "/create_cluster.yml") (mkExtraVars req k inv)).2,
        pid := some env.pid })
    (fun e => rfl) hC3
  unfold proceedPersist errRes
  dsimp only
  split
  · refine ⟨⟨hC3, hA1⟩, ?_⟩
    intro s hs
    simp only [List.mem_append, List.mem_cons] at hs
    rcases hs with hs | rfl | rfl | rfl | h0
    · exact Or.inl hs
    · exact Or.inr ⟨hC1, hA1⟩
    · exact Or.inr ⟨hC2, hA1⟩
    · exact Or.inr ⟨hC3, hA1⟩
    · cases h0
  · refine ⟨⟨hC4, hA1⟩, ?_⟩
    intro s hs
    simp only [List.mem_append, List.mem_cons] at hs
    rcases hs with hs | rfl | rfl | rfl | rfl | h0
    · exact Or.inl hs
    · exact Or.inr ⟨hC1, hA1⟩
    · exact Or.inr ⟨hC2, hA1⟩
    · exact Or.inr ⟨hC3, hA1⟩
    · exact Or.inr ⟨hC4, hA1⟩
    · cases h0


theorem proceedKubeconfig_inv (req : CreateClusterRequest) (env : Env)
    (db : DBState) (vis : List DBState) (inv : InvData) (i : Nat)
    (hOF : orphanFreeL db.clusters db.executions)
    (hAv : avoidsIdL i db.clusters) (hfresh : db.nextClusterId ≠ i) :
    (orphanFreeL (proceedKubeconfig req env db vis inv).db.clusters
        (proceedKubeconfig req env db vis inv).db.executions ∧
      avoidsIdL i (proceedKubeconfig req env db vis inv).db.clusters) ∧
    ∀ s ∈ (proceedKubeconfig req env db vis inv).visible,
      s ∈ vis ∨ (orphanFreeL s.clusters s.executions ∧ avoidsIdL i s.clusters) := by
  unfold proceedKubeconfig
  split
  · split
    · exact ⟨⟨hOF, hAv⟩, fun s hs => Or.inl hs⟩
    · split
      · exact ⟨⟨hOF, hAv⟩, fun s hs => Or.inl hs⟩
      · dsimp only
        split
        · exact ⟨⟨hOF, hAv⟩, fun s hs => Or.inl hs⟩
        · exact proceedPersist_inv req env db vis 1 inv _ i hOF hAv hfresh
  · split
    · exact proceedPersist_inv req env db vis 0 inv _ i hOF hAv hfresh
    · exact ⟨⟨hOF, hAv⟩, fun s hs => Or.inl hs⟩

theorem proceedInventory_inv (req : CreateClusterRequest) (env : Env)
    (db : DBState) (vis : List DBState) (i : Nat)
    (hOF : orphanFreeL db.clusters db.executions)
    (hAv : avoidsIdL i db.clusters) (hfresh : db.nextClusterId ≠ i) :
    (orphanFreeL (proceedInventory req env db vis).db.clusters
        (proceedInventory req env db vis).db.executions ∧
      avoidsIdL i (proceedInventory req env db vis).db.clusters) ∧
    ∀ s ∈ (proceedInventory req env db vis).visible,
      s ∈ vis ∨ (orphanFreeL s.clusters s.executions ∧ avoidsIdL i s.clusters) := by
  unfold proceedInventory
  split
  · split
    · exact ⟨⟨hOF, hAv⟩, fun s hs => Or.inl hs⟩
    · split
      · exact ⟨⟨hOF, hAv⟩, fun s hs => Or.inl hs⟩
      · exact proceedKubeconfig_inv req env db vis _ i hOF hAv hfresh
  · exact ⟨⟨hOF, hAv⟩, fun s hs => Or.inl hs⟩
  · exact ⟨⟨hOF, hAv⟩, fun s hs => Or.inl hs⟩

theorem afterLock_inv (req : CreateClusterRequest) (env : Env) (db : DBState)
    (c : ClusterRow) (hwf : db.wfb = true)
    (hfind : db.clusters.find? (fun x => x.cluster_name == req.name) = some c)
    (hforce : req.force = true) :
    (orphanFreeL (afterLock req env db).db.clusters
        (afterLock req env db).db.executions ∧
      avoidsIdL c.id (afterLock req env db).db.clusters) ∧
    ∀ s ∈ (afterLock req env db).visible,
      orphanFreeL s.clusters s.executions ∧ avoidsIdL c.id s.clusters := by
  have hw := wfb_spec hwf
  have hcmem : c ∈ db.clusters := List.mem_of_find?_eq_some hfind
  have hOF1 : orphanFreeL (db.clusters.filter (fun x => x.id != c.id))
      (db.executions.filter (fun e => e.cluster_id != c.id)) := by
    intro e he
    have he1 : e ∈ db.executions := List.mem_of_mem_filter he
    have he2 := (List.mem_filter.mp he).2
    obtain ⟨p, hp, hpe⟩ := hw.2.2.1 e he1
    refine ⟨p, List.mem_filter.mpr ⟨hp, ?_⟩, hpe⟩
    rw [hpe]
    exact he2
  have hAv1 : avoidsIdL c.id (db.clusters.filter (fun x => x.id != c.id)) := by
    intro p hp
    have h2 := (List.mem_filter.mp hp).2
    simpa using h2
  have hfresh1 : db.nextClusterId ≠ c.id :=
    (Nat.ne_of_lt (hw.1 c hcmem)).symm
  unfold afterLock
  rw [hfind]
  dsimp only
  rw [hforce]
  simp only [Bool.not_true, Bool.false_eq_true, if_false]
  obtain ⟨hdbP, hvisP⟩ := proceedInventory_inv req env
    { db with
      executions := db.executions.filter (fun e => e.cluster_id != c.id),
      clusters := db.clusters.filter (fun x => x.id != c.id) }
    [{ db with
      executions := db.executions.filter (fun e => e.cluster_id != c.id),
      clusters := db.clusters.filter (fun x => x.id != c.id) }]
    c.id hOF1 hAv1 hfresh1
  refine ⟨hdbP, fun s hs => ?_⟩
  rcases hvisP s hs with h | h
  · rw [List.mem_singleton.mp h]
    exact ⟨hOF1, hAv1⟩
  · exact h

theorem create_visible_ok (req : CreateClusterRequest) (env : Env)
    (db : DBState) (body : SuccessBody)
    (hval : validateCreateClusterRequest req = true)
    (hlock : env.lockAcquired = true)
    (hres : (afterLock req env db).result = .ok body) :
    (create_new_cluster req env db).visible = (afterLock req env db).visible := by
  unfold create_new_cluster
  rw [hval, hlock]
  simp only [if_true]
  rw [hres]

/-- C3: during a force recreation, the deletion of the old cluster's
executions and of the cluster row itself is one transaction: in the initial
store and after every commit the handler makes, every execution row has a
parent cluster row (no orphan is ever visible), and any state that still
contains the old cluster row has its execution rows untouched — no observer
sees the cluster gone with its executions remaining, or the executions gone
with the cluster remaining. -/
theorem force_recreate_atomic_no_orphans (req : CreateClusterRequest)
    (env : Env) (db : DBState) (c : ClusterRow)
    (hwf : db.wfb = true)
    (hval : validateCreateClusterRequest req = true)
    (hlock : env.lockAcquired = true)
    (hfind : db.clusters.find? (fun x => x.cluster_name == req.name) = some c)
    (hforce : req.force = true) :
    ∀ s ∈ db :: (create_new_cluster req env db).visible,
      (∀ e ∈ s.executions, ∃ cl ∈ s.clusters, cl.id = e.cluster_id) ∧
      ((∃ cl ∈ s.clusters, cl.id = c.id) →
        s.executions.filter (fun e => e.cluster_id == c.id) =
          db.executions.filter (fun e => e.cluster_id == c.id)) := by
  intro s hs
  rcases List.mem_cons.mp hs with rfl | hs'
  · exact ⟨(wfb_spec hwf).2.2.1, fun _ => rfl⟩
  · obtain ⟨hdbP, hvisP⟩ := afterLock_inv req env db c hwf hfind hforce
    have key : orphanFreeL s.clusters s.executions ∧ avoidsIdL c.id s.clusters := by
      rcases hr : (afterLock req env db).result with body | e
      · rw [create_visible_ok req env db body hval hlock hr] at hs'
        exact hvisP s hs'
      · rw [create_visible_error req env db e hval hlock hr] at hs'
        rcases List.mem_append.mp hs' with h1 | h1
        · exact hvisP s h1
        · rcases List.mem_cons.mp h1 with rfl | h1
          · exact hdbP
          · obtain rfl := List.mem_singleton.mp h1
            exact hdbP
    exact ⟨key.1, fun h => by
      obtain ⟨cl, hcl, hceq⟩ := h
      exact absurd hceq (key.2 cl hcl)⟩


/-- The C3 pre-existing cluster being recreated. -/
def c3clusterA : ClusterRow :=
  { id := 1, cluster_name := "demo", service_account := "sa1",
    «namespace» := "ns1", status := "active" }

/-- A C3 bystander cluster. -/
def c3clusterB : ClusterRow :=
  { id := 2, cluster_name := "other", service_account := "sa2",
    «namespace» := "ns2", status := "active" }

/-- The C3 execution belonging to the recreated cluster. -/
def c3exec1 : ExecutionRow :=
  { id := 1, playbook_name := "create_cluster.yml", status := "running",
    cluster_id := 1, start_time := 3, extra_vars := "", command := "",
    pid := some 7, return_code := none }

/-- The C3 execution belonging to the bystander cluster. -/
def c3exec2 : ExecutionRow :=
  { id := 2, playbook_name := "create_cluster.yml", status := "running",
    cluster_id := 2, start_time := 4, extra_vars := "", command := "",
    pid := some 8, return_code := none }

/-- The C3 request: recreate `demo` with `force=true`. -/
def c3req : CreateClusterRequest :=
  { name := "demo", service_account := "sa1", «namespace» := "ns1",
    kubeconfig := some "dGVzdA==", kubeconfig_vault_path := none,
    force := true }

/-- The C3 environment: every collaborator succeeds. -/
def c3env : Env :=
  { user_id := "u1", lockAcquired := true,
    inventory := .response 200 { id := "i1", metadata := "m1" },
    vaultTokenFile := some "tok", vaultTokenErr := "",
    vault := .ok [("kubeconfig", "dGVzdA==")], playbookDir := "/playbooks",
    now := 5, pid := 42, launchFails := false }

/-- The C3 store. -/
def c3db : DBState :=
  { clusters := [c3clusterA, c3clusterB], executions := [c3exec1, c3exec2],
    audits := [], nextClusterId := 3, nextExecutionId := 3 }

/-- The state committed by the force deletion: the recreated cluster and its
execution are gone together, the bystander rows remain. -/
def c3deleted : DBState :=
  { clusters := [c3clusterB], executions := [c3exec2], audits := [],
    nextClusterId := 3, nextExecutionId := 3 }

/-- Evaluation of the C3 theorem at a concrete force recreation: the state
committed by the deletion is orphan-free (the surviving execution still has
its parent cluster). -/
theorem force_recreate_atomic_no_orphans_witness :
    ∃ cl ∈ c3deleted.clusters, cl.id = c3exec2.cluster_id :=
  (force_recreate_atomic_no_orphans c3req c3env c3db c3clusterA
    (by decide) (by decide) (by decide) (by decide) (by decide)
    c3deleted (by decide)).1 c3exec2 (by decide)


/- ### Claim C1 -/

theorem updateExec_append_fresh (old : List ExecutionRow) (x : ExecutionRow)
    (eid : Nat) (f : ExecutionRow → ExecutionRow) (hx : x.id = eid)
    (hold : ∀ e ∈ old, e.id ≠ eid) :
    updateExec (old ++ [x]) eid f = old ++ [f x] := by
  unfold updateExec
  rw [List.map_append]
  congr 1
  · have h : ∀ e ∈ old, (if e.id == eid then f e else e) = id e := by
      intro e he
      have hne := hold e he
      simp [beq_iff_eq, hne]
    rw [List.map_congr_left h, List.map_id]
  · simp [hx]

theorem filter_double_update (old : List ExecutionRow) (x : ExecutionRow)
    (eid cid : Nat) (f1 f2 : ExecutionRow → ExecutionRow)
    (hx : x.id = eid) (hf1 : (f1 x).id = x.id)
    (hxc : (f2 (f1 x)).cluster_id = cid)
    (hold : ∀ e ∈ old, e.id ≠ eid)
    (holdc : ∀ e ∈ old, e.cluster_id ≠ cid) :
    (updateExec (updateExec (old ++ [x]) eid f1) eid f2).filter
      (fun e => e.cluster_id == cid) = [f2 (f1 x)] := by
  rw [updateExec_append_fresh old x eid f1 hx hold,
      updateExec_append_fresh old (f1 x) eid f2 (by rw [hf1, hx]) hold,
      List.filter_append]
  have hnil : old.filter (fun e => e.cluster_id == cid) = [] :=
    List.filter_eq_nil_iff.mpr (fun e he => by simpa using holdc e he)
  rw [hnil]
  simp [hxc]

theorem proceedPersist_success_rows (req : CreateClusterRequest) (env : Env)
    (db : DBState) (vis : List DBState) (vr : Nat) (inv : InvData) (k : String)
    (hl : env.launchFails = false)
    (hnames : ∀ x ∈ db.clusters, x.cluster_name ≠ req.name)
    (hexecs : ∀ e ∈ db.executions, e.cluster_id ≠ db.nextClusterId)
    (heids : ∀ e ∈ db.executions, e.id ≠ db.nextExecutionId) :
    ∃ cl ex, (proceedPersist req env db vis vr inv k).result = .ok ⟨cl, ex⟩ ∧
      cl.cluster_name = req.name ∧ cl.status = "creating" ∧
      (proceedPersist req env db vis vr inv k).db.clusters.filter
        (fun x => x.cluster_name == req.name) = [cl] ∧
      (proceedPersist req env db vis vr inv k).db.executions.filter
        (fun x => x.cluster_id == cl.id) = [ex] ∧
      ex.status = "running" ∧ ex.playbook_name = "create_cluster.yml" := by
  unfold proceedPersist
  rw [hl]
  dsimp only
  simp only [Bool.false_eq_true, if_false]
  refine ⟨_, _, rfl, rfl, rfl, ?_, ?_, rfl, rfl⟩
  · rw [List.filter_append]
    have hnil : db.clusters.filter (fun x => x.cluster_name == req.name) = [] :=
      List.filter_eq_nil_iff.mpr (fun x hx => by simpa using hnames x hx)
    rw [hnil]
    simp
  · exact filter_double_update _ _ _ _ _ _ rfl rfl rfl heids hexecs

theorem create_db_ok (req : CreateClusterRequest) (env : Env) (db : DBState)
    (body : SuccessBody) (hval : validateCreateClusterRequest req = true)
    (hlock : env.lockAcquired = true)
    (hres : (afterLock req env db).result = .ok body) :
    (create_new_cluster req env db).db = (afterLock req env db).db := by
  unfold create_new_cluster
  rw [hval, hlock]
  simp only [if_true]
  rw [hres]

/-- C1: a valid creation request for a name with no existing Cluster row —
with the lock granted, the inventory answering 200, the kubeconfig
resolvable (inline, or through a Vault fetch that succeeds) and a successful
launch — is answered 201, and afterwards exactly one Cluster row of that
name exists with status `creating` and exactly one PlaybookExecution row of
that cluster exists with status `running` and playbook
`create_cluster.yml`. -/
theorem create_cluster_success_rows (req : CreateClusterRequest) (env : Env)
    (db : DBState) (invBody : InvData)
    (hval : validateCreateClusterRequest req = true)
    (hwf : db.wfb = true)
    (hnew : ∀ x ∈ db.clusters, x.cluster_name ≠ req.name)
    (hlock : env.lockAcquired = true)
    (hinv : env.inventory = .response 200 invBody)
    (hcred : vaultFetchFails req env = false)
    (hlaunch : env.launchFails = false) :
    httpStatus (create_new_cluster req env db) = 201 ∧
    ∃ cl ex,
      (create_new_cluster req env db).db.clusters.filter
        (fun x => x.cluster_name == req.name) = [cl] ∧
      cl.status = "creating" ∧
      (create_new_cluster req env db).db.executions.filter
        (fun x => x.cluster_id == cl.id) = [ex] ∧
      ex.status = "running" ∧ ex.playbook_name = "create_cluster.yml" := by
  have hw := wfb_spec hwf
  have hsrc : validate_kubeconfig_source req = true := by
    simp only [validateCreateClusterRequest, Bool.and_eq_true] at hval
    exact hval.2
  have hfind : db.clusters.find? (fun x => x.cluster_name == req.name) = none :=
    List.find?_eq_none.mpr (fun x hx => by simpa using hnew x hx)
  have hALinv : afterLock req env db = proceedKubeconfig req env db [] invBody := by
    unfold afterLock
    rw [hfind]
    unfold proceedInventory
    rw [hinv]
    dsimp only
    have h1 : ((200 : Nat) == 404) = false := by decide
    have h2 : ((200 : Nat) != 200) = false := by decide
    simp only [h1, h2, Bool.false_eq_true, if_false]
  have key : ∃ vr k, proceedKubeconfig req env db [] invBody =
      proceedPersist req env db [] vr invBody k := by
    cases hvp : truthy req.kubeconfig_vault_path
    · have hkc : truthy req.kubeconfig = true := by
        unfold validate_kubeconfig_source at hsrc
        rw [hvp] at hsrc
        cases hk : truthy req.kubeconfig
        · rw [hk] at hsrc
          simp at hsrc
        · rfl
      refine ⟨0, req.kubeconfig.getD "", ?_⟩
      unfold proceedKubeconfig
      rw [hvp]
      simp only [Bool.false_eq_true, if_false]
      rw [hkc]
      simp only [if_true]
    · unfold vaultFetchFails at hcred
      rw [hvp] at hcred
      simp only [Bool.true_and] at hcred
      obtain ⟨hTokN, hMatch⟩ := Bool.or_eq_false_iff.mp hcred
      rcases hTok : env.vaultTokenFile with _ | tok
      · rw [hTok] at hTokN
        simp at hTokN
      · rcases hVt : env.vault with secret | m
        · rw [hVt] at hMatch
          dsimp only at hMatch
          refine ⟨1, (secret.lookup "kubeconfig").getD "", ?_⟩
          unfold proceedKubeconfig
          rw [hvp]
          simp only [if_true]
          rw [hTok]
          dsimp only
          rw [hVt]
          dsimp only
          simp only [hMatch, Bool.false_eq_true, if_false]
        · rw [hVt] at hMatch
          dsimp only at hMatch
          exact absurd hMatch (by simp)
  obtain ⟨vr, k, hK⟩ := key
  have hAL : afterLock req env db = proceedPersist req env db [] vr invBody k :=
    hALinv.trans hK
  have hexecs : ∀ e ∈ db.executions, e.cluster_id ≠ db.nextClusterId := by
    intro e he
    obtain ⟨p, hp, hpe⟩ := hw.2.2.1 e he
    rw [← hpe]
    exact Nat.ne_of_lt (hw.1 p hp)
  have heids : ∀ e ∈ db.executions, e.id ≠ db.nextExecutionId :=
    fun e he => Nat.ne_of_lt (hw.2.1 e he)
  obtain ⟨cl, ex, hres, hname, hstatus, hclf, hexf, hexs, hexp⟩ :=
    proceedPersist_success_rows req env db [] vr invBody k
      hlaunch hnew hexecs heids
  have hres2 : (afterLock req env db).result = .ok ⟨cl, ex⟩ := by
    rw [hAL]
    exact hres
  have hdb2 : (create_new_cluster req env db).db = (afterLock req env db).db :=
    create_db_ok req env db ⟨cl, ex⟩ hval hlock hres2
  constructor
  · unfold httpStatus
    rw [create_result_after_lock req env db hval hlock, hres2]
  · refine ⟨cl, ex, ?_, hstatus, ?_, hexs, hexp⟩
    · rw [hdb2, hAL]
      exact hclf
    · rw [hdb2, hAL]
      exact hexf

/-- The C1 request: the kubeconfig comes from a Vault path. -/
def c1req : CreateClusterRequest :=
  { name := "demo", service_account := "sa1", «namespace» := "ns1",
    kubeconfig := none, kubeconfig_vault_path := some "secret/kc",
    force := false }

/-- The C1 environment: every collaborator succeeds, including the Vault
fetch of the kubeconfig. -/
def c1env : Env :=
  { user_id := "u1", lockAcquired := true,
    inventory := .response 200 { id := "i1", metadata := "m1" },
    vaultTokenFile := some "tok", vaultTokenErr := "",
    vault := .ok [("kubeconfig", "dGVzdA==")], playbookDir := "/playbooks",
    now := 5, pid := 42, launchFails := false }

/-- The C1 store: empty. -/
def c1db : DBState :=
  { clusters := [], executions := [], audits := [], nextClusterId := 1,
    nextExecutionId := 1 }

/-- Evaluation of the C1 theorem at a concrete fresh creation request whose
kubeconfig is fetched from Vault. -/
theorem create_cluster_success_rows_witness :
    httpStatus (create_new_cluster c1req c1env c1db) = 201 :=
  (create_cluster_success_rows c1req c1env c1db { id := "i1", metadata := "m1" }
    (by decide) (by decide) (by decide) (by decide) (by decide) (by decide)
    (by decide)).1

end PxBackup
